import Mathlib

/-!
Verification development for the RiseBuilder bot-factory repository.

The Python sources are shallowly embedded as Lean definitions:

* timestamps (`DateTime` columns) are modelled as `Int` day numbers, one
  billing period per day;
* money amounts (`Float` balances and fees) are modelled as `Int`; every
  amount appearing in the configuration and in the spec examples is integral;
* nullable Python values (`Optional[str]`, nullable columns) are `Option`;
* database tables are association lists keyed by the integer primary key;
* fallible endpoints return an explicit response/result type.

Definitions are translated from the files under `src/`; where a claim is
decided by repository code that is not under `src/` (the `tasks/` and
`services/` packages that `src/celery_app.py` merely dispatches to), the
missing operation is modelled from the spec, and its doc comment says so.
-/

namespace RiseBuilder

/-! ### Configuration defaults, from src/config.py -/

/-- Default of `Settings.MAX_BOTS_PER_USER` (src/config.py line 30). -/
def MAX_BOTS_PER_USER : Nat := 10

/-- Default of `Settings.DEFAULT_DAILY_FEE` (src/config.py line 32). -/
def DEFAULT_DAILY_FEE : Int := 1000

/-- Value of `Settings.NOTIFICATION_DAYS_BEFORE` (src/config.py line 35). -/
def NOTIFICATION_DAYS_BEFORE : List Int := [3, 1]

/-- Value of `Settings.CLEANUP_DAYS_AFTER` (src/config.py line 36). -/
def CLEANUP_DAYS_AFTER : Int := 15

/-! ### Data model, from src/models.py -/

/-- Row of the `users` table (src/models.py, class `User`); only the columns
the verified claims touch are carried. -/
structure User where
  id : Nat
  balance : Int
  total_spent : Int
deriving DecidableEq, Repr

/-- Row of the `bot_templates` table (src/models.py, class `BotTemplate`). -/
structure BotTemplate where
  id : Nat
  name : String
  creation_fee : Int
  daily_fee : Int
deriving DecidableEq, Repr

/-- Row of the `bots` table (src/models.py, class `Bot`).  `status` is a free
string column (`String(50)`, default `"created"`); the source comment on the
column enumerates `created, running, stopped, suspended, deleted`. -/
structure Bot where
  id : Nat
  user_id : Nat
  template_id : Nat
  name : String
  token : String
  status : String
  last_payment_date : Option Int
  next_payment_date : Option Int
  suspended_at : Option Int
  will_be_deleted_at : Option Int
deriving DecidableEq, Repr

/-! ### src/main.py -/

/-- Python substring containment `w in t` on `str` values: some tail of `t`
starts with `w`. -/
def pyInStr (w t : String) : Bool :=
  t.data.tails.any (fun s => w.data.isPrefixOf s)

/-- Embedding of `words_filter(msg, words)` (src/main.py lines 15-21).
`text` is the message's `msg.text` (`none` when the attribute is `None`);
Python's `not msg.text` is true for `None` and for the empty string. -/
def words_filter (text : Option String) (words : List String) : Bool :=
  match text with
  | none => false
  | some t =>
      if t = "" then false
      else words.any (fun w => pyInStr w t)

/-- Rendering of one fetched row inside `get_data`'s loop,
`"..".format(x)` with a trailing newline (src/main.py line 78);
the row is carried as its already-stringified form. -/
def format_row (x : String) : String := x ++ "\n"

/-- Accumulation of `msg` in `get_data` (src/main.py lines 71-78): `msg` is
initialized to the empty string, then each row is appended.  The accumulator
is carried as `Option String` so that the later Python check `msg is None`
is expressible; the `none` case of the step mirrors the fact that `+=` is
only ever executed on an actual string. -/
def get_data_msg (rows : List String) : Option String :=
  rows.foldl (fun m x => m.map (fun s => s ++ format_row x)) (some "")

/-- Which message `get_data` sends (src/main.py lines 79-82). -/
inductive SentMessage where
  | emptyNotice
  | text (s : String)
deriving DecidableEq, Repr

/-- Embedding of `get_data(message)` (src/main.py lines 69-83): builds `msg`
from the fetched rows, replies with the "Hech narsa yoq" notice when
`msg is None`, and otherwise sends `msg` itself. -/
def get_data (rows : List String) : SentMessage :=
  match get_data_msg rows with
  | none => .emptyNotice
  | some s => .text s

/-! ### src/app.py -/

/-- Outcome of the DELETE `/api/bots/..` endpoint (src/app.py lines 253-279):
`success` is the 200 reply "Bot deleted successfully", `notFound` the 404
`HTTPException`, `failedToDelete` the 400 one. -/
inductive DeleteBotResponse where
  | success
  | notFound
  | failedToDelete
deriving DecidableEq, Repr

/-- Embedding of the `delete_bot` endpoint (src/app.py lines 253-279): look
the bot up by id (`scalar_one_or_none`); 404 when absent; call
`bot_factory.delete_bot` (outside src/, its outcome is the `factory_ok`
input); on factory success write `status = "deleted"` and
`will_be_deleted_at = datetime.now()` and commit; otherwise 400.  Returns
the HTTP outcome and the committed `bots` table. -/
def delete_bot (bots : List Bot) (bot_id : Nat) (factory_ok : Bool) (now : Int) :
    DeleteBotResponse × List Bot :=
  match bots.find? (fun b => b.id == bot_id) with
  | none => (.notFound, bots)
  | some _ =>
      if factory_ok then
        (.success,
          bots.map (fun b =>
            if b.id == bot_id then
              { b with status := "deleted", will_be_deleted_at := some now }
            else b))
      else (.failedToDelete, bots)

/-- Outcome of one of the probes inside `health_check`: either the probed
value, or the message of the exception the probe raised. -/
inductive ProbeResult (α : Type) where
  | ok (val : α)
  | exn (msg : String)
deriving DecidableEq, Repr

/-- Truth of a probe having completed without raising. -/
def ProbeResult.isOk {α : Type} : ProbeResult α → Bool
  | .ok _ => true
  | .exn _ => false

/-- The JSON body and status code produced by `health_check`; fields absent
from a branch's body are `none`. -/
structure HealthResponse where
  status_code : Nat
  status : String
  database : Option String
  redis : Option String
  error : Option String
deriving DecidableEq, Repr

/-- Embedding of the GET `/health` endpoint (src/app.py lines 76-104): run
the database probe (`select 1`), then the Celery/Redis ping whose reply list
is truthy-tested into `redis_ok`; reply 200 "healthy" when neither raised,
and on any exception reply 503 "unhealthy" carrying the exception text.  The
endpoint only reads; it is a pure function of the two probe outcomes. -/
def health_check (db : ProbeResult Unit) (ping : ProbeResult (List String)) :
    HealthResponse :=
  match db with
  | .exn e =>
      { status_code := 503, status := "unhealthy",
        database := none, redis := none, error := some e }
  | .ok _ =>
      match ping with
      | .exn e =>
          { status_code := 503, status := "unhealthy",
            database := none, redis := none, error := some e }
      | .ok replies =>
          { status_code := 200, status := "healthy",
            database := some "ok",
            redis := some (if replies.isEmpty then "error" else "ok"),
            error := none }

/-! ### The section 4.1 lifecycle table, from the spec's words -/

/-- Transition table of spec section 4.1, written from the spec's words (not
from the source, which contains no such table): the edges
created->running, running->stopped, running->suspended, stopped->running,
suspended->running, with running/stopped/suspended ->pending_deletion and
pending_deletion->deleted.  Used to compare the source's observable
transitions against the specified state machine. -/
def specEdge (a b : String) : Bool :=
  (a == "created" && b == "running") ||
  (a == "running" && b == "stopped") ||
  (a == "running" && b == "suspended") ||
  (a == "stopped" && b == "running") ||
  (a == "suspended" && b == "running") ||
  ((a == "running" || a == "stopped" || a == "suspended") && b == "pending_deletion") ||
  (a == "pending_deletion" && b == "deleted")

/-- A concrete running bot used as test input for the delete endpoint. -/
def demoRunningBot : Bot :=
  { id := 1, user_id := 7, template_id := 2, name := "shop", token := "tok",
    status := "running", last_payment_date := some 90, next_payment_date := some 91,
    suspended_at := none, will_be_deleted_at := none }

/-! ### Theorems for src/main.py -/

/-- Python's `w in t` holds exactly when `w` is an infix of `t`. -/
theorem pyInStr_iff (w t : String) : pyInStr w t = true ↔ w.data <:+: t.data := by
  simp only [pyInStr, List.any_eq_true, List.mem_tails, List.isPrefixOf_iff_prefix,
    List.infix_iff_prefix_suffix]
  exact ⟨fun ⟨s, hs, hp⟩ => ⟨s, hp, hs⟩, fun ⟨s, hp, hs⟩ => ⟨s, hs, hp⟩⟩

/-- C9: `words_filter(msg, words)` returns `False` for every message whose
text is empty or absent, and otherwise returns `True` if and only if at least
one element of `words` occurs as a substring of the message text. -/
theorem C9_words_filter_characterization (text : Option String) (words : List String) :
    words_filter text words = true ↔
      ∃ t, text = some t ∧ t ≠ "" ∧ ∃ w ∈ words, w.data <:+: t.data := by
  cases text with
  | none => simp [words_filter]
  | some t =>
      by_cases h : t = ""
      · subst h
        simp [words_filter]
      · simp [words_filter, h, List.any_eq_true, pyInStr_iff]

/-! ### src/celery_app.py -/

/-- A periodic cadence from the beat schedule: either a fixed interval in
seconds (the source writes these as floats with integral value), or a
wall-clock hour/minute mapping with an optional day-of-week (0 = Sunday in
Celery's convention, as the source comments). -/
inductive Schedule where
  | every (seconds : Nat)
  | cron (hour : Nat) (minute : Nat) (day_of_week : Option Nat)
deriving DecidableEq, Repr

/-- One entry of `beat_schedule`: its dictionary key, the dotted task path,
the cadence, and the queue from its options. -/
structure BeatEntry where
  key : String
  task : String
  schedule : Schedule
  queue : String
deriving DecidableEq, Repr

/-- Embedding of the `beat_schedule` configuration
(src/celery_app.py lines 33-106), entry for entry in source order. -/
def beat_schedule : List BeatEntry :=
  [ { key := "check-payments", task := "tasks.payment_checker.check_daily_payments",
      schedule := .every 3600, queue := "payments" },
    { key := "check-bot-health", task := "tasks.bot_monitor.check_bot_health",
      schedule := .every 300, queue := "monitoring" },
    { key := "monitor-performance", task := "tasks.bot_monitor.monitor_performance",
      schedule := .every 900, queue := "monitoring" },
    { key := "collect-analytics", task := "tasks.bot_monitor.collect_analytics",
      schedule := .every 1800, queue := "monitoring" },
    { key := "cleanup-files", task := "tasks.cleanup_task.cleanup_files",
      schedule := .every 21600, queue := "cleanup" },
    { key := "daily-cleanup", task := "tasks.cleanup_task.daily_cleanup",
      schedule := .cron 2 0 none, queue := "cleanup" },
    { key := "daily-report", task := "tasks.payment_checker.generate_daily_report",
      schedule := .cron 9 0 none, queue := "payments" },
    { key := "system-health", task := "tasks.bot_monitor.check_system_health",
      schedule := .every 600, queue := "monitoring" },
    { key := "weekly-cleanup", task := "tasks.cleanup_task.weekly_cleanup",
      schedule := .cron 3 0 (some 0), queue := "cleanup" } ]

/-- Task-level worker settings of the Celery app
(src/celery_app.py lines 108-117). -/
structure CeleryConf where
  worker_concurrency : Nat
  task_acks_late : Bool
  task_reject_on_worker_lost : Bool
  task_time_limit : Nat
  task_soft_time_limit : Nat
deriving DecidableEq, Repr

/-- Embedding of the `celery_app.conf.update` worker/task settings
(src/celery_app.py lines 108-117). -/
def celery_conf : CeleryConf :=
  { worker_concurrency := 4,
    task_acks_late := true,
    task_reject_on_worker_lost := true,
    task_time_limit := 3600,
    task_soft_time_limit := 3000 }

/-- Characters of a dotted task path after its final dot; gives the bare job
name that the spec's section 6 table uses. -/
def afterLastDot (l : List Char) : List Char :=
  l.foldl (fun acc c => if c = '.' then [] else acc ++ [c]) []

/-- The bare job name of a dotted task path. -/
def shortName (s : String) : String := String.mk (afterLastDot s.data)

/-- The section 6 scheduled-job catalog, written from the spec's words as
rows (job name, queue, cadence): hourly = every 3600 s, every 5 min = 300 s,
every 15 min = 900 s, every 30 min = 1800 s, every 6 h = 21600 s,
every 10 min = 600 s, daily 02:00 / 09:00, weekly Sunday 03:00. -/
def specJobCatalog : List (String × String × Schedule) :=
  [ ("check_daily_payments", "payments", .every 3600),
    ("check_bot_health", "monitoring", .every 300),
    ("monitor_performance", "monitoring", .every 900),
    ("collect_analytics", "monitoring", .every 1800),
    ("cleanup_files", "cleanup", .every 21600),
    ("daily_cleanup", "cleanup", .cron 2 0 none),
    ("generate_daily_report", "payments", .cron 9 0 none),
    ("check_system_health", "monitoring", .every 600),
    ("weekly_cleanup", "cleanup", .cron 3 0 (some 0)) ]

/-! ### BillingGate and bot creation, modelled from the spec

The Celery tasks in src/celery_app.py only dispatch to
`tasks.payment_checker.PaymentChecker` and `services.bot_factory.BotFactory`,
whose modules are not under src/; the operations below are modelled from the
spec's words (sections 4.2 and 4.4). -/

/-- A scheduled reminder notification for an owner about a bot, to fire at
day `remind_at`. -/
structure Reminder where
  user_id : Nat
  bot_id : Nat
  remind_at : Int
deriving DecidableEq, Repr

/-- The store state the billing pass reads and writes: the `users` and
`bots` tables, the reminders scheduled so far, and the bot ids for which a
receipt notification was emitted. -/
structure FleetState where
  users : List User
  bots : List Bot
  reminders : List Reminder
  receipts : List Nat
deriving DecidableEq, Repr

/-- Lookup of a user row by id. -/
def findUser (users : List User) (uid : Nat) : Option User :=
  users.find? (fun u => u.id == uid)

/-- Pointwise update of the user row with the given id. -/
def updateUser (users : List User) (uid : Nat) (f : User → User) : List User :=
  users.map (fun u => if u.id == uid then f u else u)

/-- Balance of the user with the given id (0 when absent). -/
def balanceOf (users : List User) (uid : Nat) : Int :=
  match findUser users uid with
  | some u => u.balance
  | none => 0

/-- The applicable daily fee of a bot: its template's `daily_fee`, falling
back to the configured default when the template row is absent. -/
def botFee (templates : List BotTemplate) (b : Bot) : Int :=
  match templates.find? (fun t => t.id == b.template_id) with
  | some t => t.daily_fee
  | none => DEFAULT_DAILY_FEE

/-- Whether the billing pass must handle a bot today: it is `running` or
`suspended` and its `next_payment_date` has passed (spec section 4.4). -/
def paymentDue (today : Int) (b : Bot) : Bool :=
  (b.status == "running" || b.status == "suspended") &&
    (match b.next_payment_date with
     | some d => decide (d ≤ today)
     | none => false)

/-- Modelled from the spec: one bot's step of
`PaymentChecker.check_daily_payments` (`tasks/payment_checker.py`, not under
src/; src/celery_app.py lines 129-139 only dispatch to it).  Following spec
section 4.4: when the bot is due, attempt to debit the owner's balance by
the applicable fee; on success advance `last_payment_date` and
`next_payment_date` (one day, the billing period), ensure the status is
`running`, and emit a receipt; on insufficient balance transition the bot to
`suspended` and schedule reminder notifications at the configured day
offsets before the deletion deadline (`today + CLEANUP_DAYS_AFTER`). -/
def processBotPayment (templates : List BotTemplate) (today : Int)
    (st : FleetState) (b : Bot) : FleetState :=
  if paymentDue today b then
    let fee := botFee templates b
    match findUser st.users b.user_id with
    | none => st
    | some u =>
        if fee ≤ u.balance then
          { st with
            users := updateUser st.users u.id (fun v =>
              { v with balance := v.balance - fee, total_spent := v.total_spent + fee }),
            bots := st.bots.map (fun c =>
              if c.id == b.id then
                { c with status := "running", last_payment_date := some today,
                         next_payment_date := some (today + 1) }
              else c),
            receipts := st.receipts ++ [b.id] }
        else
          { st with
            bots := st.bots.map (fun c =>
              if c.id == b.id then { c with status := "suspended" } else c),
            reminders := st.reminders ++ NOTIFICATION_DAYS_BEFORE.map (fun d =>
              { user_id := b.user_id, bot_id := b.id,
                remind_at := today + CLEANUP_DAYS_AFTER - d }) }
  else st

/-- Modelled from the spec: `PaymentChecker.check_daily_payments` processes
every bot of the fleet snapshot in turn (spec section 4.4). -/
def check_daily_payments (templates : List BotTemplate) (st : FleetState)
    (today : Int) : FleetState :=
  st.bots.foldl (processBotPayment templates today) st

/-- Number of non-deleted bots an owner has. -/
def countNonDeleted (bots : List Bot) (owner : Nat) : Nat :=
  (bots.filter (fun b => b.user_id == owner && !(b.status == "deleted"))).length

/-- Result of a creation attempt; every constructor carries the resulting
store so that "no new row is persisted" is expressible. -/
inductive CreateResult where
  | created (st : FleetState) (b : Bot)
  | quotaExceeded (st : FleetState)
  | spawnFailure (st : FleetState)
deriving DecidableEq, Repr

/-- Modelled from the spec: `BotFactory.create_bot`
(`services/bot_factory.py`, not under src/; src/celery_app.py lines 265-276
only dispatch to it).  Following spec section 4.2: fail with `QuotaExceeded`
when the owner already owns at least `MAX_BOTS_PER_USER` non-deleted bots;
otherwise spawn the runtime (its outcome is the `spawn_ok` input) and on
success persist the new row transitioned to `running`; on spawn failure
leave no durable bot row. -/
def create_bot (st : FleetState) (owner_id template_id new_id : Nat)
    (name token : String) (spawn_ok : Bool) : CreateResult :=
  if MAX_BOTS_PER_USER ≤ countNonDeleted st.bots owner_id then
    .quotaExceeded st
  else if spawn_ok then
    .created
      { st with bots := st.bots ++
          [ { id := new_id, user_id := owner_id, template_id := template_id,
              name := name, token := token, status := "running",
              last_payment_date := none, next_payment_date := none,
              suspended_at := none, will_be_deleted_at := none } ] }
      { id := new_id, user_id := owner_id, template_id := template_id,
        name := name, token := token, status := "running",
        last_payment_date := none, next_payment_date := none,
        suspended_at := none, will_be_deleted_at := none }
  else
    .spawnFailure st

/-- A user with enough balance for one daily fee. -/
def demoUser : User := { id := 1, balance := 1000, total_spent := 0 }

/-- A user whose balance is below the daily fee. -/
def demoPoorUser : User := { id := 1, balance := 500, total_spent := 0 }

/-- A template with the default daily fee. -/
def demoTemplate : BotTemplate :=
  { id := 1, name := "basic", creation_fee := 50000, daily_fee := 1000 }

/-- A running bot of `demoUser` whose payment is due on day 0. -/
def demoBillBot : Bot :=
  { id := 1, user_id := 1, template_id := 1, name := "shop", token := "tok",
    status := "running", last_payment_date := none, next_payment_date := some 0,
    suspended_at := none, will_be_deleted_at := none }

/-- Ten non-deleted bots owned by user 7. -/
def demoTenBots : List Bot :=
  (List.range MAX_BOTS_PER_USER).map (fun i => { demoRunningBot with id := i })

/-- A store in which user 7 already owns ten non-deleted bots. -/
def demoFullState : FleetState :=
  { users := [demoUser], bots := demoTenBots, reminders := [], receipts := [] }

/-! ### Theorems for the spec-modelled billing and creation operations -/

/-- C3: the billing pass is idempotent per billing period: for a bot whose
payment is due and whose owner has sufficient balance, one run debits the
fee exactly once (one receipt, balance lowered by the fee) and advances
`next_payment_date` past today, so that a second back-to-back run changes
nothing at all. -/
theorem C3_check_daily_payments_idempotent (u : User) (b : Bot) (t : BotTemplate)
    (today : Int)
    (hub : b.user_id = u.id) (htb : b.template_id = t.id)
    (hdue : paymentDue today b = true)
    (hbal : t.daily_fee ≤ u.balance) :
    balanceOf (check_daily_payments [t] ⟨[u], [b], [], []⟩ today).users u.id
        = u.balance - t.daily_fee
  ∧ (check_daily_payments [t] ⟨[u], [b], [], []⟩ today).receipts = [b.id]
  ∧ check_daily_payments [t] (check_daily_payments [t] ⟨[u], [b], [], []⟩ today) today
      = check_daily_payments [t] ⟨[u], [b], [], []⟩ today := by
  have hfee : botFee [t] b = t.daily_fee := by
    simp [botFee, htb, List.find?]
  have huser : findUser [u] u.id = some u := by
    simp [findUser, List.find?]
  have h1 : check_daily_payments [t] ⟨[u], [b], [], []⟩ today
      = { users :=
            [{ u with
                balance := u.balance - t.daily_fee,
                total_spent := u.total_spent + t.daily_fee }],
          bots :=
            [{ b with
                status := "running",
                last_payment_date := some today,
                next_payment_date := some (today + 1) }],
          reminders := [], receipts := [b.id] } := by
    simp [check_daily_payments, processBotPayment, hdue, hfee, hub, huser, hbal, updateUser]
  have hnotdue : paymentDue today
      { b with status := "running", last_payment_date := some today,
               next_payment_date := some (today + 1) } = false := by
    simp [paymentDue]
  rw [h1]
  refine ⟨?_, rfl, ?_⟩
  · simp [balanceOf, findUser, List.find?]
  · simp [check_daily_payments, processBotPayment, hnotdue]

/-- Witness for the C3 theorem at a concrete owner, bot and template. -/
theorem C3_check_daily_payments_idempotent_witness :
    (paymentDue 0 demoBillBot = true ∧ demoTemplate.daily_fee ≤ demoUser.balance)
  ∧ (balanceOf (check_daily_payments [demoTemplate]
        ⟨[demoUser], [demoBillBot], [], []⟩ 0).users demoUser.id
          = demoUser.balance - demoTemplate.daily_fee
     ∧ (check_daily_payments [demoTemplate]
          ⟨[demoUser], [demoBillBot], [], []⟩ 0).receipts = [demoBillBot.id]
     ∧ check_daily_payments [demoTemplate]
          (check_daily_payments [demoTemplate] ⟨[demoUser], [demoBillBot], [], []⟩ 0) 0
        = check_daily_payments [demoTemplate] ⟨[demoUser], [demoBillBot], [], []⟩ 0) :=
  ⟨⟨by decide, by decide⟩,
    C3_check_daily_payments_idempotent demoUser demoBillBot demoTemplate 0
      rfl rfl (by decide) (by decide)⟩

/-- C4: creating a bot for an owner who already has `MAX_BOTS_PER_USER`
non-deleted bots fails with `QuotaExceeded`, and the result carries the
store unchanged: no new row is persisted. -/
theorem C4_create_bot_quota (st : FleetState) (owner_id template_id new_id : Nat)
    (name token : String) (spawn_ok : Bool)
    (hq : countNonDeleted st.bots owner_id = MAX_BOTS_PER_USER) :
    create_bot st owner_id template_id new_id name token spawn_ok
      = .quotaExceeded st := by
  unfold create_bot
  rw [hq]
  simp

/-- Witness for the C4 theorem at a store holding ten bots of owner 7. -/
theorem C4_create_bot_quota_witness :
    countNonDeleted demoFullState.bots 7 = MAX_BOTS_PER_USER
  ∧ create_bot demoFullState 7 2 99 "new" "tok2" true = .quotaExceeded demoFullState :=
  ⟨by decide, C4_create_bot_quota demoFullState 7 2 99 "new" "tok2" true (by decide)⟩

/-- C5: for a running bot whose payment is due and whose owner's balance is
below the daily fee, the billing pass suspends the bot, leaves the owner's
balance (indeed the whole users table) unchanged, and schedules reminders at
the configured offsets of 3 and 1 days before the deletion deadline
`today + CLEANUP_DAYS_AFTER`. -/
theorem C5_insufficient_balance_suspends (u : User) (b : Bot) (t : BotTemplate)
    (today : Int)
    (hub : b.user_id = u.id) (htb : b.template_id = t.id)
    (hst : b.status = "running")
    (hdue : paymentDue today b = true)
    (hbal : u.balance < t.daily_fee) :
    (check_daily_payments [t] ⟨[u], [b], [], []⟩ today).bots.map Bot.status = ["suspended"]
  ∧ (check_daily_payments [t] ⟨[u], [b], [], []⟩ today).users = [u]
  ∧ (check_daily_payments [t] ⟨[u], [b], [], []⟩ today).reminders
      = [ { user_id := u.id, bot_id := b.id, remind_at := today + CLEANUP_DAYS_AFTER - 3 },
          { user_id := u.id, bot_id := b.id, remind_at := today + CLEANUP_DAYS_AFTER - 1 } ] := by
  have hfee : botFee [t] b = t.daily_fee := by
    simp [botFee, htb, List.find?]
  have huser : findUser [u] u.id = some u := by
    simp [findUser, List.find?]
  have hnot : ¬ (t.daily_fee ≤ u.balance) := not_le.mpr hbal
  simp [check_daily_payments, processBotPayment, hdue, hfee, huser, hnot,
    NOTIFICATION_DAYS_BEFORE, hub, hst]

/-- Witness for the C5 theorem at a concrete owner, bot and template. -/
theorem C5_insufficient_balance_suspends_witness :
    (demoBillBot.status = "running" ∧ paymentDue 0 demoBillBot = true
      ∧ demoPoorUser.balance < demoTemplate.daily_fee)
  ∧ ((check_daily_payments [demoTemplate]
        ⟨[demoPoorUser], [demoBillBot], [], []⟩ 0).bots.map Bot.status = ["suspended"]
     ∧ (check_daily_payments [demoTemplate]
          ⟨[demoPoorUser], [demoBillBot], [], []⟩ 0).users = [demoPoorUser]
     ∧ (check_daily_payments [demoTemplate]
          ⟨[demoPoorUser], [demoBillBot], [], []⟩ 0).reminders
        = [ { user_id := demoPoorUser.id, bot_id := demoBillBot.id,
              remind_at := 0 + CLEANUP_DAYS_AFTER - 3 },
            { user_id := demoPoorUser.id, bot_id := demoBillBot.id,
              remind_at := 0 + CLEANUP_DAYS_AFTER - 1 } ]) :=
  ⟨⟨by decide, by decide, by decide⟩,
    C5_insufficient_balance_suspends demoPoorUser demoBillBot demoTemplate 0
      rfl rfl rfl (by decide) (by decide)⟩

/-! ### Theorems for src/celery_app.py -/

/-- C6: the registered periodic job catalog matches the section 6 table
exactly: projecting every `beat_schedule` entry to its bare job name, queue
and cadence yields precisely the nine specified rows (in particular no other
periodic job is registered). -/
theorem C6_beat_schedule_matches_catalog :
    beat_schedule.map (fun e => (shortName e.task, e.queue, e.schedule)) = specJobCatalog
  ∧ beat_schedule.length = 9 := by
  constructor
  · rfl
  · rfl

/-- C7: acknowledgment is deferred until completion (`task_acks_late`) and a
worker lost mid-job requeues the message (`task_reject_on_worker_lost`), the
at-least-once configuration; and the global soft time limit 3000 s is
strictly below the hard limit 3600 s. -/
theorem C7_ack_and_time_limits :
    celery_conf.task_acks_late = true
  ∧ celery_conf.task_reject_on_worker_lost = true
  ∧ celery_conf.task_soft_time_limit = 3000
  ∧ celery_conf.task_time_limit = 3600
  ∧ celery_conf.task_soft_time_limit < celery_conf.task_time_limit := by
  decide

/-! ### Theorems for src/app.py -/

/-- C1 counterexample: deleting an existing running bot writes status
`"deleted"` immediately; the committed status is not `"pending_deletion"`,
refuting the soft-delete claim at this concrete input. -/
theorem C1_cex_delete_writes_deleted_directly :
    (delete_bot [demoRunningBot] 1 true 100).2.map Bot.status = ["deleted"]
  ∧ ¬ (delete_bot [demoRunningBot] 1 true 100).2.map Bot.status = ["pending_deletion"] := by
  decide

/-- C1 amended: delete is a hard status write, not a soft delete: for every
existing bot, when the factory delete succeeds, the endpoint replies success
and the bot row is committed with status `"deleted"` (never
`"pending_deletion"`) together with the deletion timestamp
`will_be_deleted_at = now`. -/
theorem C1_delete_sets_deleted (bots : List Bot) (bot_id : Nat) (now : Int) (b : Bot)
    (hfind : bots.find? (fun c => c.id == bot_id) = some b) :
    (delete_bot bots bot_id true now).1 = .success ∧
    ∀ c ∈ (delete_bot bots bot_id true now).2,
      c.id = bot_id → c.status = "deleted" ∧ c.will_be_deleted_at = some now := by
  unfold delete_bot
  rw [hfind]
  refine ⟨rfl, ?_⟩
  intro c hc hcid
  rcases List.mem_map.mp hc with ⟨c0, _, rfl⟩
  by_cases h : (c0.id == bot_id) = true
  · simp [h]
  · rw [if_neg h] at hcid ⊢
    exact absurd (beq_iff_eq.mpr hcid) h

/-- Witness for the amended C1 theorem at a concrete store. -/
theorem C1_delete_sets_deleted_witness :
    ([demoRunningBot].find? (fun c => c.id == 1) = some demoRunningBot)
  ∧ ((delete_bot [demoRunningBot] 1 true 100).1 = .success ∧
      ∀ c ∈ (delete_bot [demoRunningBot] 1 true 100).2,
        c.id = 1 → c.status = "deleted" ∧ c.will_be_deleted_at = some 100) :=
  ⟨by decide, C1_delete_sets_deleted [demoRunningBot] 1 100 demoRunningBot (by decide)⟩

/-- C2 counterexample: the delete endpoint applies the edge
running -> deleted, which is not in the section 4.1 table, and succeeds
rather than failing with InvalidTransition and leaving the status
unchanged. -/
theorem C2_cex_delete_skips_table :
    demoRunningBot.status = "running"
  ∧ (delete_bot [demoRunningBot] 1 true 100).1 = .success
  ∧ (delete_bot [demoRunningBot] 1 true 100).2.map Bot.status = ["deleted"]
  ∧ specEdge "running" "deleted" = false := by
  decide

/-- C2 amended: no transition validation exists in the model layer:
`Bot.status` is a free string column, and the delete endpoint succeeds from
every current status, writing `"deleted"` directly without any
InvalidTransition check (no such error exists in the code). -/
theorem C2_no_transition_guard (b : Bot) (now : Int) :
    (delete_bot [b] b.id true now).1 = .success ∧
    (delete_bot [b] b.id true now).2.map Bot.status = ["deleted"] := by
  unfold delete_bot
  simp [List.find?]

/-- C8: the `/health` endpoint replies 200 "healthy" exactly when both the
database probe and the Celery/Redis ping complete without raising, and on
either exception it replies 503 "unhealthy" carrying the exception text; it
is a pure function of the probe outcomes (no state is mutated). -/
theorem C8_health_check_iff :
    (∀ (db : ProbeResult Unit) (ping : ProbeResult (List String)),
        ((health_check db ping).status_code = 200 ∧ (health_check db ping).status = "healthy")
          ↔ (db.isOk = true ∧ ping.isOk = true))
  ∧ (∀ (e : String) (ping : ProbeResult (List String)),
        health_check (.exn e) ping =
          { status_code := 503, status := "unhealthy",
            database := none, redis := none, error := some e })
  ∧ (∀ (e : String),
        health_check (.ok ()) (.exn e) =
          { status_code := 503, status := "unhealthy",
            database := none, redis := none, error := some e }) := by
  refine ⟨?_, fun e ping => rfl, fun e => rfl⟩
  intro db ping
  cases db <;> cases ping <;> simp [health_check, ProbeResult.isOk]

/-- Accumulating rows over an `Option String` that starts as an actual string
never produces `none`. -/
theorem get_data_msg_eq (rows : List String) :
    ∀ s : String,
      rows.foldl (fun m x => m.map (fun a => a ++ format_row x)) (some s)
        = some (rows.foldl (fun m x => m ++ format_row x) s) := by
  induction rows with
  | nil => intro s; rfl
  | cons x xs ih =>
      intro s
      simp only [List.foldl_cons, Option.map_some']
      exact ih (s ++ format_row x)

/-- C10: the empty-result branch of `get_data` that replies "Hech narsa yoq"
is unreachable: `msg` starts as the empty string and is only concatenated, so
it is never `None`; in particular a query with no rows sends the empty
message. -/
theorem C10_empty_notice_unreachable :
    (∀ rows : List String,
        get_data rows = .text (rows.foldl (fun m x => m ++ format_row x) ""))
  ∧ get_data ([] : List String) = .text "" := by
  constructor
  · intro rows
    unfold get_data get_data_msg
    rw [get_data_msg_eq]
  · rfl

end RiseBuilder
